import Mathlib

/-!
Verification of the flow controller (`packages/server/api/src/app/flows/flow/flow.controller.ts`)
and the color-picker widget (`packages/react-ui/src/components/ui/color-picker.tsx`)
of the activepieces repository, as a shallow embedding in Lean 4.

Timestamps are modelled as integer milliseconds since the epoch (the value
underlying `dayjs()` objects).  External collaborators of the controller
(project service, project-member role lookup, flow service) are collected in an
`Env` record of abstract functions; code of the repository that is not part of
the excerpt (the rbac middleware, the `FlowOperationType` enum, the flow
service's pagination) is modelled from the specification and marked as such in
its doc comment.
-/

/-! ## Basic identifiers -/

abbrev UserId := String
abbrev ProjectId := String
abbrev FlowId := String
abbrev FlowVersionId := String
abbrev ProjectRole := String

/-! ## Principals -/

inductive PrincipalType where
  | USER
  | SERVICE
deriving DecidableEq, Repr

structure Principal where
  id : String
  type : PrincipalType
  projectId : ProjectId
deriving DecidableEq, Repr

/-! ## Flow data model -/

structure FlowVersion where
  id : FlowVersionId
  updatedBy : Option UserId
  /-- `updated` timestamp, in milliseconds since the epoch. -/
  updated : Int
deriving DecidableEq, Repr

structure PopulatedFlow where
  id : FlowId
  version : FlowVersion
deriving DecidableEq, Repr

structure Project where
  id : ProjectId
  ownerId : UserId
deriving DecidableEq, Repr

/-! ## Operations and permissions -/

/-- Modelled from the spec: the `FlowOperationType` enum lives in
`@activepieces/shared`, outside the excerpt.  The spec's permission table
lists exactly these thirteen operation kinds, matching the cases of the
`switch` in `assertUserHasPermissionToFlow`. -/
inductive FlowOperationType where
  | LOCK_AND_PUBLISH
  | CHANGE_STATUS
  | ADD_ACTION
  | UPDATE_ACTION
  | DELETE_ACTION
  | LOCK_FLOW
  | CHANGE_FOLDER
  | CHANGE_NAME
  | MOVE_ACTION
  | IMPORT_FLOW
  | UPDATE_TRIGGER
  | DUPLICATE_ACTION
  | USE_AS_DRAFT
deriving DecidableEq, Repr

inductive Permission where
  | UPDATE_FLOW_STATUS
  | WRITE_FLOW
  | READ_FLOW
deriving DecidableEq, Repr

/-! ## Errors -/

inductive ActivepiecesError where
  | FLOW_IN_USE (flowVersionId : FlowVersionId) (message : String)
  | PERMISSION_DENIED
  | ENTITY_NOT_FOUND (message : String)
deriving DecidableEq, Repr

deriving instance DecidableEq for Except

/-! ## External collaborators

The controller delegates to `projectService`, `projectMemberService`,
`assertRoleHasPermission` (rbac middleware) and `flowService`.  Only their
call sites appear in the excerpt, so they are abstract functions here. -/

structure Env where
  /-- `projectService.getOneOrThrow`, as a partial lookup. -/
  projects : ProjectId → Option Project
  /-- `projectMemberService.getRole`: the role of a user inside a project. -/
  roleOf : ProjectId → UserId → Option ProjectRole
  /-- Modelled from the spec: the role → permission mapping consulted by the
  shared permission-check utility ("a role to a set of permissions"). -/
  rolePermissions : ProjectRole → Permission → Bool
  /-- `flowService.getOnePopulatedOrThrow`, as a partial lookup. -/
  getOnePopulatedOrThrow : FlowId → ProjectId → Option PopulatedFlow
  /-- `flowService.update`: result of applying the operation. -/
  update : FlowId → Option UserId → FlowOperationType →
      Except ActivepiecesError PopulatedFlow

/-! ## `extractUserIdFromPrincipal` (flow.controller.ts, lines 183-192) -/

def extractUserIdFromPrincipal (env : Env) (principal : Principal) :
    Except ActivepiecesError UserId :=
  if principal.type = PrincipalType.USER then
    .ok principal.id
  else
    match env.projects principal.projectId with
    | none => .error (.ENTITY_NOT_FOUND "project")
    | some project => .ok project.ownerId

/-! ## Permission checking -/

/-- Evaluation of a permission against an optional role: no role, or a role
without the permission, is a denial. -/
def checkRolePermission (env : Env) (role : Option ProjectRole)
    (permission : Permission) : Except ActivepiecesError Unit :=
  match role with
  | none => .error .PERMISSION_DENIED
  | some r =>
      if env.rolePermissions r permission then .ok () else .error .PERMISSION_DENIED

/-- Modelled from the spec: `assertRoleHasPermission` (ee rbac middleware, not
part of the excerpt) "resolves permission checks against the project owner's
role, not a service-level role" for service principals, i.e. it resolves the
acting user from the principal (human principals use their own id, service
principals the project owner) and checks the required permission against that
user's role in the principal's project. -/
def assertRoleHasPermission (env : Env) (principal : Principal)
    (permission : Permission) : Except ActivepiecesError Unit :=
  match extractUserIdFromPrincipal env principal with
  | .error e => .error e
  | .ok userId =>
      checkRolePermission env (env.roleOf principal.projectId userId) permission

/-- The permission the `switch` in `assertUserHasPermissionToFlow` requires
for each operation kind; `none` would mean the kind falls through the switch
with no check, which happens for no kind. -/
def permissionForOperation : FlowOperationType → Option Permission
  | .LOCK_AND_PUBLISH => some .UPDATE_FLOW_STATUS
  | .CHANGE_STATUS => some .UPDATE_FLOW_STATUS
  | .ADD_ACTION => some .WRITE_FLOW
  | .UPDATE_ACTION => some .WRITE_FLOW
  | .DELETE_ACTION => some .WRITE_FLOW
  | .LOCK_FLOW => some .WRITE_FLOW
  | .CHANGE_FOLDER => some .WRITE_FLOW
  | .CHANGE_NAME => some .WRITE_FLOW
  | .MOVE_ACTION => some .WRITE_FLOW
  | .IMPORT_FLOW => some .WRITE_FLOW
  | .UPDATE_TRIGGER => some .WRITE_FLOW
  | .DUPLICATE_ACTION => some .WRITE_FLOW
  | .USE_AS_DRAFT => some .WRITE_FLOW

/-- Total form of the table, used to label the permission-check step of the
update handler's trace. -/
def requiredPermission : FlowOperationType → Permission
  | .LOCK_AND_PUBLISH | .CHANGE_STATUS => .UPDATE_FLOW_STATUS
  | .ADD_ACTION | .UPDATE_ACTION | .DELETE_ACTION | .LOCK_FLOW | .CHANGE_FOLDER
  | .CHANGE_NAME | .MOVE_ACTION | .IMPORT_FLOW | .UPDATE_TRIGGER
  | .DUPLICATE_ACTION | .USE_AS_DRAFT => .WRITE_FLOW

/-- `assertUserHasPermissionToFlow` (flow.controller.ts, lines 131-161).
The source first awaits `projectMemberService.getRole({ projectId, userId })`
and leaves the result unused (the handler trace records that call); the switch
then dispatches on the operation type. -/
def assertUserHasPermissionToFlow (env : Env) (principal : Principal)
    (userId : UserId) (operationType : FlowOperationType) :
    Except ActivepiecesError Unit :=
  let _role := env.roleOf principal.projectId userId
  match operationType with
  | .LOCK_AND_PUBLISH | .CHANGE_STATUS =>
      assertRoleHasPermission env principal Permission.UPDATE_FLOW_STATUS
  | .ADD_ACTION | .UPDATE_ACTION | .DELETE_ACTION | .LOCK_FLOW | .CHANGE_FOLDER
  | .CHANGE_NAME | .MOVE_ACTION | .IMPORT_FLOW | .UPDATE_TRIGGER
  | .DUPLICATE_ACTION | .USE_AS_DRAFT =>
      assertRoleHasPermission env principal Permission.WRITE_FLOW

/-! ## The one-minute conflict guard -/

/-- `dayjs(current).diff(dayjs(updated), 'minute')`: the difference in whole
minutes, truncated toward zero (dayjs's `absFloor`). -/
def dayjsDiffMinutes (currentMs updatedMs : Int) : Int :=
  if updatedMs ≤ currentMs then
    ((currentMs - updatedMs).toNat / 60000 : Nat)
  else
    -(((updatedMs - currentMs).toNat / 60000 : Nat) : Int)

def flowInUseMessage : String :=
  "Flow is being used by another user in the last minute. Please try again later."

/-- `assertThatFlowIsNotBeingUsed` (flow.controller.ts, lines 163-181). -/
def assertThatFlowIsNotBeingUsed (flow : PopulatedFlow) (userId : UserId)
    (currentTimeMs : Int) : Except ActivepiecesError Unit :=
  match flow.version.updatedBy with
  | none => .ok ()
  | some updatedBy =>
      if updatedBy ≠ userId ∧
          dayjsDiffMinutes currentTimeMs flow.version.updated ≤ 1 then
        .error (.FLOW_IN_USE flow.version.id flowInUseMessage)
      else
        .ok ()

/-! ## The update handler (POST /:id, flow.controller.ts lines 54-77)

Side effects are recorded as an event trace so that ordering claims can be
stated; the handler returns the trace together with its result. -/

inductive Event where
  | getRoleCall (projectId : ProjectId) (userId : UserId)
  | permissionCheck (permission : Permission)
  | sendUpdatedFlow (flowId : FlowId) (userId : String)
  | flowServiceUpdate (flowId : FlowId) (userId : Option UserId)
      (operationType : FlowOperationType)
deriving DecidableEq, Repr

structure UpdateRequest where
  /-- `request.params.id`. -/
  flowId : FlowId
  /-- `request.body.type`; the rest of the operation body is opaque here. -/
  opType : FlowOperationType
deriving DecidableEq, Repr

def updateFlowHandler (env : Env) (principal : Principal) (req : UpdateRequest)
    (currentTimeMs : Int) :
    List Event × Except ActivepiecesError PopulatedFlow :=
  match extractUserIdFromPrincipal env principal with
  | .error e => ([], .error e)
  | .ok userId =>
    let permEvents := [Event.getRoleCall principal.projectId userId,
                       Event.permissionCheck (requiredPermission req.opType)]
    match assertUserHasPermissionToFlow env principal userId req.opType with
    | .error e => (permEvents, .error e)
    | .ok _ =>
      match env.getOnePopulatedOrThrow req.flowId principal.projectId with
      | none => (permEvents, .error (.ENTITY_NOT_FOUND "flow"))
      | some flow =>
        match assertThatFlowIsNotBeingUsed flow userId currentTimeMs with
        | .error e => (permEvents, .error e)
        | .ok _ =>
          let serviceUserId :=
            if principal.type = PrincipalType.SERVICE then none else some userId
          (permEvents ++
            [Event.sendUpdatedFlow flow.id principal.id,
             Event.flowServiceUpdate req.flowId serviceUserId req.opType],
           env.update req.flowId serviceUserId req.opType)

/-! ## The list handler (GET /, flow.controller.ts lines 79-87) -/

def DEFAULT_PAGE_SIZE : Nat := 10

structure ListFlowsQuery where
  folderId : Option String
  cursor : Option String
  limit : Option Nat
  status : Option String
deriving DecidableEq, Repr

/-- The argument record the handler passes to `flowService.list`. -/
structure ListParams where
  projectId : ProjectId
  folderId : Option String
  cursorRequest : Option String
  limit : Nat
  status : Option String
deriving DecidableEq, Repr

def listFlowsHandler (principal : Principal) (query : ListFlowsQuery) :
    ListParams :=
  { projectId := principal.projectId
    folderId := query.folderId
    cursorRequest := query.cursor
    limit := query.limit.getD DEFAULT_PAGE_SIZE
    status := query.status }

/-- Modelled from the spec: `flowService.list` (flow.service.ts, not part of
the excerpt) performs "cursor-based pagination" returning one page of at most
`limit` items; the project/folder/status filtering and cursor positioning are
abstracted into the pre-filtered input list. -/
def flowServiceList (allFlows : List PopulatedFlow) (params : ListParams) :
    List PopulatedFlow :=
  allFlows.take params.limit

/-! ## Color picker widget (color-picker.tsx)

The component's `useState` hooks give it three pieces of local state: the
in-progress `color`, the `savedColor`, and the popover `open` flag.  Calls to
the caller-supplied `onSave` callback are recorded as the list of values it is
invoked with. -/

structure ColorPickerState where
  color : String
  savedColor : String
  popoverOpen : Bool
deriving DecidableEq, Repr

/-- JavaScript `defaultValue || '#FFFFFF'`: both an absent prop and an empty
string fall back to the default. -/
def jsOrDefault (value : Option String) (fallback : String) : String :=
  match value with
  | none => fallback
  | some s => if s = "" then fallback else s

def initialColorPickerState (defaultValue : Option String) : ColorPickerState :=
  { color := jsOrDefault defaultValue "#FFFFFF"
    savedColor := jsOrDefault defaultValue "#FFFFFF"
    popoverOpen := false }

/-- In-progress edits: a drag of the `HexColorPicker` or a keystroke in the
hex `Input`; both call `setColor` with the new value. -/
inductive ColorPickerEvent where
  | hexColorPickerChange (value : String)
  | inputChange (value : String)
deriving DecidableEq, Repr

/-- The `setColor` state setter. -/
def setColor (s : ColorPickerState) (value : String) : ColorPickerState :=
  { s with color := value }

/-- One in-progress change: the new state, plus the values the `onSave`
callback is invoked with during the handler (none: neither `onChange` handler
touches `savedColor` or calls `onSave`). -/
def applyChange (s : ColorPickerState) :
    ColorPickerEvent → ColorPickerState × List String
  | .hexColorPickerChange value => (setColor s value, [])
  | .inputChange value => (setColor s value, [])

/-- A sequence of in-progress changes, accumulating the `onSave` invocations. -/
def runChanges (s : ColorPickerState) :
    List ColorPickerEvent → ColorPickerState × List String
  | [] => (s, [])
  | e :: rest =>
      let step := applyChange s e
      let next := runChanges step.1 rest
      (next.1, step.2 ++ next.2)

/-- The confirm `Button`'s `onClick`: `onSave?.(color)`, then
`setSavedColor(color)`, then `setOpen(false)`. -/
def confirmClick (s : ColorPickerState) : ColorPickerState × List String :=
  ({ s with savedColor := s.color, popoverOpen := false }, [s.color])

/-! ## Contrast color (the confirm button's foreground) -/

def hexDigitValue (c : Char) : Option Nat :=
  if '0' ≤ c ∧ c ≤ '9' then some (c.toNat - '0'.toNat)
  else if 'a' ≤ c ∧ c ≤ 'f' then some (c.toNat - 'a'.toNat + 10)
  else if 'A' ≤ c ∧ c ≤ 'F' then some (c.toNat - 'A'.toNat + 10)
  else none

def parseHexPair (hi lo : Char) : Option Nat :=
  match hexDigitValue hi, hexDigitValue lo with
  | some h, some l => some (16 * h + l)
  | _, _ => none

/-- Parse a `#RRGGBB` color into its red/green/blue components. -/
def parseHexColor (s : String) : Option (Nat × Nat × Nat) :=
  match s.toList with
  | ['#', r1, r2, g1, g2, b1, b2] =>
      match parseHexPair r1 r2, parseHexPair g1 g2, parseHexPair b1 b2 with
      | some r, some g, some b => some (r, g, b)
      | _, _, _ => none
  | _ => none

/-- Modelled from the spec: `ContrastColor.contrastColor` comes from the
third-party `contrast-color` library, outside the excerpt; the spec only says
the foreground "is computed via a contrast algorithm to remain legible against
arbitrary backgrounds".  The library's algorithm with its default options:
the YIQ perceived brightness of the background, against a threshold of 128,
choosing black text on light backgrounds and white text on dark ones (and
white on unparseable input). -/
def contrastColor (bgColor : String) : String :=
  match parseHexColor bgColor with
  | none => "#FFFFFF"
  | some (r, g, b) =>
      if 128 ≤ (299 * r + 587 * g + 114 * b) / 1000 then "#000000"
      else "#FFFFFF"

/-! ## Concrete fixtures, used by witnesses and counterexamples -/

def flowEx : PopulatedFlow := ⟨"f1", ⟨"v1", some "alice", 0⟩⟩

def flowFreshEx : PopulatedFlow := ⟨"f2", ⟨"v2", none, 0⟩⟩

def envEx : Env :=
  { projects := fun pid => if pid = "p1" then some ⟨"p1", "owner1"⟩ else none
    roleOf := fun pid uid =>
      if pid = "p1" ∧ (uid = "bob" ∨ uid = "owner1") then some "EDITOR" else none
    rolePermissions := fun _ _ => true
    getOnePopulatedOrThrow := fun fid pid =>
      if pid = "p1" then
        if fid = "f1" then some flowEx
        else if fid = "f2" then some flowFreshEx
        else none
      else none
    update := fun _ _ _ => .ok flowFreshEx }

def principalEx : Principal := ⟨"bob", PrincipalType.USER, "p1"⟩

def principalSvcEx : Principal := ⟨"svc1", PrincipalType.SERVICE, "p1"⟩

/-! ## Helper lemmas -/

lemma dayjsDiffMinutes_le_one_iff (t u : Int) (h : u ≤ t) :
    dayjsDiffMinutes t u ≤ 1 ↔ t - u < 120000 := by
  unfold dayjsDiffMinutes
  rw [if_pos h]
  omega

/-- The conflict guard, on a version last updated by a different user, throws
exactly when the truncated minute difference is at most one, i.e. when less
than 120 seconds have elapsed. -/
lemma conflictGuard_window (flow : PopulatedFlow) (userId : UserId) (t : Int)
    (w : UserId) (hw : flow.version.updatedBy = some w) (hne : w ≠ userId)
    (hle : flow.version.updated ≤ t) :
    (t - flow.version.updated < 120000 →
      assertThatFlowIsNotBeingUsed flow userId t =
        .error (.FLOW_IN_USE flow.version.id flowInUseMessage)) ∧
    (120000 ≤ t - flow.version.updated →
      assertThatFlowIsNotBeingUsed flow userId t = .ok ()) := by
  simp only [assertThatFlowIsNotBeingUsed, hw]
  constructor
  · intro hlt
    rw [if_pos ⟨hne, (dayjsDiffMinutes_le_one_iff t flow.version.updated hle).mpr hlt⟩]
  · intro hge
    rw [if_neg]
    intro hcond
    exact absurd ((dayjsDiffMinutes_le_one_iff t flow.version.updated hle).mp hcond.2)
      (by omega)

/-- On the all-checks-pass path the update handler produces the four-event
trace and returns the flow service's result. -/
lemma updateFlowHandler_success (env : Env) (principal : Principal)
    (req : UpdateRequest) (t : Int) (userId : UserId) (flow : PopulatedFlow)
    (h1 : extractUserIdFromPrincipal env principal = .ok userId)
    (h2 : assertUserHasPermissionToFlow env principal userId req.opType = .ok ())
    (h3 : env.getOnePopulatedOrThrow req.flowId principal.projectId = some flow)
    (h4 : assertThatFlowIsNotBeingUsed flow userId t = .ok ()) :
    updateFlowHandler env principal req t =
      ([Event.getRoleCall principal.projectId userId,
        Event.permissionCheck (requiredPermission req.opType),
        Event.sendUpdatedFlow flow.id principal.id,
        Event.flowServiceUpdate req.flowId
          (if principal.type = PrincipalType.SERVICE then none else some userId)
          req.opType],
       env.update req.flowId
         (if principal.type = PrincipalType.SERVICE then none else some userId)
         req.opType) := by
  simp only [updateFlowHandler, h1, h2, h3, h4]
  rfl

/-- When the guard rejects, the handler stops with that error after the
role lookup and the permission check. -/
lemma updateFlowHandler_guardFail (env : Env) (principal : Principal)
    (req : UpdateRequest) (t : Int) (userId : UserId) (flow : PopulatedFlow)
    (e : ActivepiecesError)
    (h1 : extractUserIdFromPrincipal env principal = .ok userId)
    (h2 : assertUserHasPermissionToFlow env principal userId req.opType = .ok ())
    (h3 : env.getOnePopulatedOrThrow req.flowId principal.projectId = some flow)
    (h4 : assertThatFlowIsNotBeingUsed flow userId t = .error e) :
    updateFlowHandler env principal req t =
      ([Event.getRoleCall principal.projectId userId,
        Event.permissionCheck (requiredPermission req.opType)],
       .error e) := by
  simp only [updateFlowHandler, h1, h2, h3, h4]

/-! ## Claims -/

/-- C10: for every update request, the conflict guard passes whenever the
flow version's `updatedBy` is nil or equals the acting user's resolved id,
regardless of how recent the `updated` timestamp is: a user can always re-edit
their own recent edit, and a never-edited version never conflicts. -/
theorem C10_guard_passes_for_own_or_fresh (flow : PopulatedFlow)
    (userId : UserId) (t : Int)
    (h : flow.version.updatedBy = none ∨ flow.version.updatedBy = some userId) :
    assertThatFlowIsNotBeingUsed flow userId t = .ok () := by
  rcases h with h | h
  · simp only [assertThatFlowIsNotBeingUsed, h]
  · simp only [assertThatFlowIsNotBeingUsed, h]
    rw [if_neg]
    intro hcond
    exact hcond.1 rfl

/-- Witness for C10: the guard accepts a re-edit by the same user five seconds
after their own edit. -/
theorem C10_guard_passes_for_own_or_fresh_witness :
    assertThatFlowIsNotBeingUsed ⟨"f1", ⟨"v1", some "bob", 0⟩⟩ "bob" 5000 =
      .ok () :=
  C10_guard_passes_for_own_or_fresh ⟨"f1", ⟨"v1", some "bob", 0⟩⟩ "bob" 5000
    (Or.inr rfl)

/-- C5: a list request without an explicit limit is forwarded to
`flowService.list` with limit `DEFAULT_PAGE_SIZE = 10`, so the returned page
has at most 10 items; an explicit limit is passed through unchanged. -/
theorem C5_default_page_size (principal : Principal) (query : ListFlowsQuery)
    (flows : List PopulatedFlow) :
    (query.limit = none →
      (listFlowsHandler principal query).limit = DEFAULT_PAGE_SIZE ∧
      (flowServiceList flows (listFlowsHandler principal query)).length ≤ 10) ∧
    (∀ n, query.limit = some n →
      (listFlowsHandler principal query).limit = n) := by
  constructor
  · intro h
    constructor
    · simp [listFlowsHandler, h]
    · simp only [flowServiceList, listFlowsHandler, h, Option.getD_none,
        DEFAULT_PAGE_SIZE]
      exact List.length_take_le 10 flows
  · intro n h
    simp [listFlowsHandler, h]

/-- Witness for C5: a query with no limit yields the default page size of 10
and a page of at most 10 items. -/
theorem C5_default_page_size_witness :
    (listFlowsHandler principalEx ⟨none, none, none, none⟩).limit =
      DEFAULT_PAGE_SIZE ∧
    (flowServiceList [flowEx, flowFreshEx]
      (listFlowsHandler principalEx ⟨none, none, none, none⟩)).length ≤ 10 :=
  (C5_default_page_size principalEx ⟨none, none, none, none⟩
    [flowEx, flowFreshEx]).1 rfl

/-- C7: confirming the color picker (the checkmark click) invokes the save
callback exactly once with the currently displayed in-progress value, updates
the saved-color state to that value, and closes the popover — after any
sequence of in-progress changes from any initial value. -/
theorem C7_confirm_saves_once (defaultValue : Option String)
    (evts : List ColorPickerEvent) :
    (confirmClick (runChanges (initialColorPickerState defaultValue) evts).1).2 =
      [(runChanges (initialColorPickerState defaultValue) evts).1.color] ∧
    (confirmClick
        (runChanges (initialColorPickerState defaultValue) evts).1).1.savedColor =
      (runChanges (initialColorPickerState defaultValue) evts).1.color ∧
    (confirmClick
        (runChanges (initialColorPickerState defaultValue) evts).1).1.popoverOpen =
      false :=
  ⟨rfl, rfl, rfl⟩

/-- C8: in-progress changes (picker drags or text edits) without a confirm
never change the saved color and never invoke the save callback; only the
confirm handler mutates the saved value. -/
theorem C8_changes_do_not_save (s : ColorPickerState)
    (evts : List ColorPickerEvent) :
    (runChanges s evts).1.savedColor = s.savedColor ∧
    (runChanges s evts).2 = [] := by
  induction evts generalizing s with
  | nil => exact ⟨rfl, rfl⟩
  | cons e rest ih =>
    cases e with
    | hexColorPickerChange v =>
        simpa [runChanges, applyChange, setColor] using ih (setColor s v)
    | inputChange v =>
        simpa [runChanges, applyChange, setColor] using ih (setColor s v)

/-- C9: the confirm button's foreground contrast color differs between the
light background #FFFFFF (black checkmark) and the dark background #000000
(white checkmark). -/
theorem C9_contrast_differs :
    contrastColor "#FFFFFF" = "#000000" ∧
    contrastColor "#000000" = "#FFFFFF" ∧
    contrastColor "#FFFFFF" ≠ contrastColor "#000000" :=
  ⟨by decide, by decide, by decide⟩

/-- C1 is false as stated: a second edit arriving 90 seconds — more than 60
seconds — after a different user's edit is still rejected with the
flow-in-use error, because the guard compares truncated whole minutes
(`diff(updated, 'minute') ≤ 1`), a window of just under 120 seconds. -/
theorem C1_counterexample :
    flowEx.version.updatedBy = some "alice" ∧
    extractUserIdFromPrincipal envEx principalEx = Except.ok "bob" ∧
    ("alice" : String) ≠ "bob" ∧
    (90000 : Int) - flowEx.version.updated > 60000 ∧
    (updateFlowHandler envEx principalEx
        ⟨"f1", FlowOperationType.CHANGE_NAME⟩ 90000).2 =
      Except.error (ActivepiecesError.FLOW_IN_USE "v1" flowInUseMessage) :=
  ⟨rfl, by decide, by decide, by decide, by decide⟩

/-- C1 (amended): for an update request on a flow whose version was last
updated by a different user, the handler fails with the flow-in-use error
carrying the conflicting version id when the request arrives less than 120
seconds after the version's `updated` timestamp (truncated whole-minute
difference at most 1); at 120 seconds or more the conflict guard passes and
the handler proceeds to the flow service's update, returning its result. -/
theorem C1_conflict_window (env : Env) (principal : Principal)
    (req : UpdateRequest) (t : Int) (userId w : UserId) (flow : PopulatedFlow)
    (h1 : extractUserIdFromPrincipal env principal = .ok userId)
    (h2 : assertUserHasPermissionToFlow env principal userId req.opType = .ok ())
    (h3 : env.getOnePopulatedOrThrow req.flowId principal.projectId = some flow)
    (hw : flow.version.updatedBy = some w) (hne : w ≠ userId)
    (hle : flow.version.updated ≤ t) :
    (t - flow.version.updated < 120000 →
      (updateFlowHandler env principal req t).2 =
        .error (.FLOW_IN_USE flow.version.id flowInUseMessage)) ∧
    (120000 ≤ t - flow.version.updated →
      (updateFlowHandler env principal req t).2 =
        env.update req.flowId
          (if principal.type = PrincipalType.SERVICE then none else some userId)
          req.opType) := by
  obtain ⟨hthrow, hpass⟩ := conflictGuard_window flow userId t w hw hne hle
  constructor
  · intro hlt
    rw [updateFlowHandler_guardFail env principal req t userId flow _
      h1 h2 h3 (hthrow hlt)]
  · intro hge
    rw [updateFlowHandler_success env principal req t userId flow
      h1 h2 h3 (hpass hge)]

/-- Witness for the amended C1, at a request arriving 90 seconds after a
different user's edit. -/
theorem C1_conflict_window_witness :
    ((90000 : Int) - flowEx.version.updated < 120000 →
      (updateFlowHandler envEx principalEx
          ⟨"f1", FlowOperationType.CHANGE_NAME⟩ 90000).2 =
        .error (.FLOW_IN_USE flowEx.version.id flowInUseMessage)) ∧
    (120000 ≤ (90000 : Int) - flowEx.version.updated →
      (updateFlowHandler envEx principalEx
          ⟨"f1", FlowOperationType.CHANGE_NAME⟩ 90000).2 =
        envEx.update "f1"
          (if principalEx.type = PrincipalType.SERVICE then none else some "bob")
          FlowOperationType.CHANGE_NAME) :=
  C1_conflict_window envEx principalEx ⟨"f1", FlowOperationType.CHANGE_NAME⟩
    90000 "bob" "alice" flowEx (by decide) (by decide) (by decide) rfl
    (by decide) (by decide)

/-- C2: an update request by a SERVICE principal resolves the acting user id
to the owner of the principal's project, and the permission check for the
operation's required permission is evaluated against that project owner's
role (the member-role lookup for the owner in the principal's project), not
a service-level role. -/
theorem C2_service_principal_resolves_owner (env : Env) (principal : Principal)
    (proj : Project) (op : FlowOperationType)
    (hservice : principal.type = PrincipalType.SERVICE)
    (hproj : env.projects principal.projectId = some proj) :
    extractUserIdFromPrincipal env principal = .ok proj.ownerId ∧
    assertUserHasPermissionToFlow env principal proj.ownerId op =
      checkRolePermission env (env.roleOf principal.projectId proj.ownerId)
        (requiredPermission op) := by
  have hex : extractUserIdFromPrincipal env principal = .ok proj.ownerId := by
    simp [extractUserIdFromPrincipal, hservice, hproj]
  refine ⟨hex, ?_⟩
  cases op <;>
    simp only [assertUserHasPermissionToFlow, assertRoleHasPermission, hex,
      requiredPermission]

/-- Witness for C2: a service principal of project p1 acts as the project
owner owner1. -/
theorem C2_service_principal_resolves_owner_witness :
    extractUserIdFromPrincipal envEx principalSvcEx =
      .ok (Project.mk "p1" "owner1").ownerId ∧
    assertUserHasPermissionToFlow envEx principalSvcEx
        (Project.mk "p1" "owner1").ownerId FlowOperationType.CHANGE_NAME =
      checkRolePermission envEx
        (envEx.roleOf principalSvcEx.projectId (Project.mk "p1" "owner1").ownerId)
        (requiredPermission FlowOperationType.CHANGE_NAME) :=
  C2_service_principal_resolves_owner envEx principalSvcEx ⟨"p1", "owner1"⟩
    FlowOperationType.CHANGE_NAME rfl (by decide)

/-- C3: no operation kind falls outside the permission table — the switch in
`assertUserHasPermissionToFlow` covers every kind, assigning it a required
permission and performing the corresponding permission check, so no kind is
silently allowed without a check. -/
theorem C3_every_kind_checked (op : FlowOperationType) :
    permissionForOperation op = some (requiredPermission op) ∧
    ∀ (env : Env) (principal : Principal) (userId : UserId),
      assertUserHasPermissionToFlow env principal userId op =
        assertRoleHasPermission env principal (requiredPermission op) := by
  cases op <;> exact ⟨rfl, fun _ _ _ => rfl⟩

/-- C4: the permission table maps lock-and-publish and change-status to
update-flow-status and the remaining eleven operation kinds to write-flow,
and in every run of the update handler that reaches the flow-service
mutation, the permission check for the operation's required permission
appears strictly earlier in the trace. -/
theorem C4_permission_table_and_order (env : Env) (principal : Principal)
    (req : UpdateRequest) (t : Int) (u : Option UserId)
    (hmem : Event.flowServiceUpdate req.flowId u req.opType ∈
      (updateFlowHandler env principal req t).1) :
    requiredPermission .LOCK_AND_PUBLISH = .UPDATE_FLOW_STATUS ∧
    requiredPermission .CHANGE_STATUS = .UPDATE_FLOW_STATUS ∧
    requiredPermission .ADD_ACTION = .WRITE_FLOW ∧
    requiredPermission .UPDATE_ACTION = .WRITE_FLOW ∧
    requiredPermission .DELETE_ACTION = .WRITE_FLOW ∧
    requiredPermission .LOCK_FLOW = .WRITE_FLOW ∧
    requiredPermission .CHANGE_FOLDER = .WRITE_FLOW ∧
    requiredPermission .CHANGE_NAME = .WRITE_FLOW ∧
    requiredPermission .MOVE_ACTION = .WRITE_FLOW ∧
    requiredPermission .IMPORT_FLOW = .WRITE_FLOW ∧
    requiredPermission .UPDATE_TRIGGER = .WRITE_FLOW ∧
    requiredPermission .DUPLICATE_ACTION = .WRITE_FLOW ∧
    requiredPermission .USE_AS_DRAFT = .WRITE_FLOW ∧
    ∃ pre post : List Event,
      (updateFlowHandler env principal req t).1 =
        pre ++ Event.permissionCheck (requiredPermission req.opType) :: post ∧
      Event.flowServiceUpdate req.flowId u req.opType ∈ post := by
  refine ⟨rfl, rfl, rfl, rfl, rfl, rfl, rfl, rfl, rfl, rfl, rfl, rfl, rfl, ?_⟩
  cases hex : extractUserIdFromPrincipal env principal with
  | error e =>
      simp only [updateFlowHandler, hex] at hmem
      simp at hmem
  | ok userId =>
    cases hperm : assertUserHasPermissionToFlow env principal userId req.opType with
    | error e =>
        simp only [updateFlowHandler, hex, hperm] at hmem
        simp at hmem
    | ok permOk =>
      cases permOk
      cases hget : env.getOnePopulatedOrThrow req.flowId principal.projectId with
      | none =>
          simp only [updateFlowHandler, hex, hperm, hget] at hmem
          simp at hmem
      | some flow =>
        cases hguard : assertThatFlowIsNotBeingUsed flow userId t with
        | error e =>
            simp only [updateFlowHandler, hex, hperm, hget, hguard] at hmem
            simp at hmem
        | ok guardOk =>
          cases guardOk
          rw [updateFlowHandler_success env principal req t userId flow
            hex hperm hget hguard] at hmem ⊢
          refine ⟨[Event.getRoleCall principal.projectId userId],
            [Event.sendUpdatedFlow flow.id principal.id,
             Event.flowServiceUpdate req.flowId
               (if principal.type = PrincipalType.SERVICE then none else some userId)
               req.opType], rfl, ?_⟩
          simp only [List.mem_cons, List.not_mem_nil, or_false] at hmem ⊢
          simp at hmem
          simp [hmem]

/-- Witness for C4: a successful update run whose trace contains the
flow-service mutation preceded by the write-flow permission check. -/
theorem C4_permission_table_and_order_witness :
    requiredPermission .LOCK_AND_PUBLISH = .UPDATE_FLOW_STATUS ∧
    requiredPermission .CHANGE_STATUS = .UPDATE_FLOW_STATUS ∧
    requiredPermission .ADD_ACTION = .WRITE_FLOW ∧
    requiredPermission .UPDATE_ACTION = .WRITE_FLOW ∧
    requiredPermission .DELETE_ACTION = .WRITE_FLOW ∧
    requiredPermission .LOCK_FLOW = .WRITE_FLOW ∧
    requiredPermission .CHANGE_FOLDER = .WRITE_FLOW ∧
    requiredPermission .CHANGE_NAME = .WRITE_FLOW ∧
    requiredPermission .MOVE_ACTION = .WRITE_FLOW ∧
    requiredPermission .IMPORT_FLOW = .WRITE_FLOW ∧
    requiredPermission .UPDATE_TRIGGER = .WRITE_FLOW ∧
    requiredPermission .DUPLICATE_ACTION = .WRITE_FLOW ∧
    requiredPermission .USE_AS_DRAFT = .WRITE_FLOW ∧
    ∃ pre post : List Event,
      (updateFlowHandler envEx principalEx
          ⟨"f2", FlowOperationType.CHANGE_NAME⟩ 200000).1 =
        pre ++
          Event.permissionCheck (requiredPermission FlowOperationType.CHANGE_NAME)
            :: post ∧
      Event.flowServiceUpdate "f2" (some "bob") FlowOperationType.CHANGE_NAME
        ∈ post :=
  C4_permission_table_and_order envEx principalEx
    ⟨"f2", FlowOperationType.CHANGE_NAME⟩ 200000 (some "bob") (by decide)

/-- C6: in every update run that passes the permission and conflict checks,
the updated-flow event is emitted strictly before the flow-service mutation
(position 2 against position 3 of the trace), and since the trace does not
depend on the mutation's result, the event is emitted even when the
subsequent mutation fails. -/
theorem C6_event_before_mutation (env : Env) (principal : Principal)
    (req : UpdateRequest) (t : Int) (userId : UserId) (flow : PopulatedFlow)
    (h1 : extractUserIdFromPrincipal env principal = .ok userId)
    (h2 : assertUserHasPermissionToFlow env principal userId req.opType = .ok ())
    (h3 : env.getOnePopulatedOrThrow req.flowId principal.projectId = some flow)
    (h4 : assertThatFlowIsNotBeingUsed flow userId t = .ok ()) :
    (updateFlowHandler env principal req t).1 =
      [Event.getRoleCall principal.projectId userId,
       Event.permissionCheck (requiredPermission req.opType),
       Event.sendUpdatedFlow flow.id principal.id,
       Event.flowServiceUpdate req.flowId
         (if principal.type = PrincipalType.SERVICE then none else some userId)
         req.opType] ∧
    (updateFlowHandler env principal req t).2 =
      env.update req.flowId
        (if principal.type = PrincipalType.SERVICE then none else some userId)
        req.opType ∧
    ∀ e, env.update req.flowId
        (if principal.type = PrincipalType.SERVICE then none else some userId)
        req.opType = .error e →
      Event.sendUpdatedFlow flow.id principal.id ∈
        (updateFlowHandler env principal req t).1 ∧
      (updateFlowHandler env principal req t).2 = .error e := by
  have h := updateFlowHandler_success env principal req t userId flow h1 h2 h3 h4
  refine ⟨by rw [h], by rw [h], ?_⟩
  intro e he
  rw [h]
  exact ⟨by simp, by simpa using he⟩

/-- Witness for C6: a successful run emits the updated-flow event at
position 2 of the trace, before the mutation at position 3. -/
theorem C6_event_before_mutation_witness :
    (updateFlowHandler envEx principalEx
        ⟨"f2", FlowOperationType.CHANGE_NAME⟩ 200000).1 =
      [Event.getRoleCall principalEx.projectId "bob",
       Event.permissionCheck (requiredPermission FlowOperationType.CHANGE_NAME),
       Event.sendUpdatedFlow flowFreshEx.id principalEx.id,
       Event.flowServiceUpdate "f2"
         (if principalEx.type = PrincipalType.SERVICE then none else some "bob")
         FlowOperationType.CHANGE_NAME] ∧
    (updateFlowHandler envEx principalEx
        ⟨"f2", FlowOperationType.CHANGE_NAME⟩ 200000).2 =
      envEx.update "f2"
        (if principalEx.type = PrincipalType.SERVICE then none else some "bob")
        FlowOperationType.CHANGE_NAME ∧
    ∀ e, envEx.update "f2"
        (if principalEx.type = PrincipalType.SERVICE then none else some "bob")
        FlowOperationType.CHANGE_NAME = .error e →
      Event.sendUpdatedFlow flowFreshEx.id principalEx.id ∈
        (updateFlowHandler envEx principalEx
          ⟨"f2", FlowOperationType.CHANGE_NAME⟩ 200000).1 ∧
      (updateFlowHandler envEx principalEx
          ⟨"f2", FlowOperationType.CHANGE_NAME⟩ 200000).2 = .error e :=
  C6_event_before_mutation envEx principalEx
    ⟨"f2", FlowOperationType.CHANGE_NAME⟩ 200000 "bob" flowFreshEx
    (by decide) (by decide) (by decide) (by decide)
